import Mathlib

/-!
Verification of the multi-source record merge and delta-comparison engine of
the `selettore_rendimenti` repository, as a shallow embedding in Lean 4.

Numbers that Python stores as `float` are modelled as exact rationals (`Rat`);
`None` becomes `Option.none`.  Python dictionaries keyed by strings are
modelled as insertion-ordered association lists, matching CPython semantics.
Network calls performed by the scrapers are modelled as oracle parameters.
-/

namespace SelRend

/-! ### Python string primitives -/

/-- ASCII whitespace test matching the characters stripped by Python
`str.strip()` on the inputs that occur in this system. -/
def pyIsSpace (c : Char) : Bool :=
  c = ' ' || c = '\t' || c = '\n' || c = '\r' || c = '\x0b' || c = '\x0c'

/-- Model of Python `str.strip()`: remove leading and trailing whitespace. -/
def pyStrip (s : String) : String :=
  ⟨(s.toList.dropWhile pyIsSpace).reverse.dropWhile pyIsSpace |>.reverse⟩

/-- Model of Python `str.upper()` restricted to ASCII case mapping (the
identifiers and category names handled by the system are ASCII; Python also
maps some non-ASCII letters, which we do not model). -/
def pyUpper (s : String) : String :=
  ⟨s.toList.map Char.toUpper⟩

/-- Model of Python `str.lower()` restricted to ASCII case mapping. -/
def pyLower (s : String) : String :=
  ⟨s.toList.map Char.toLower⟩

/-- Model of the Python substring test `needle in haystack`. -/
def pyInStr (needle haystack : String) : Bool :=
  decide (needle.toList <:+: haystack.toList)

/-! ### Python rounding

Python `round(x, n)` rounds to `n` decimal digits with ties going to the
nearest even multiple (banker's rounding).  We model the float operands as
exact rationals. -/

/-- Round the fraction `a / b` (with `b > 0`) to the nearest integer, ties to
even.  `Int.fdiv` and `Int.fmod` give the floor quotient and a remainder in
`[0, b)`. -/
def roundHalfEvenInt (a b : Int) : Int :=
  let d := a.fdiv b
  let r := a.fmod b
  if 2 * r < b then d
  else if b < 2 * r then d + 1
  else if d % 2 = 0 then d else d + 1

/-- Model of Python `round(x, ndigits)` for `ndigits ≥ 0`, on the exact
rational value: `q * 10 ^ ndigits = (q.num * 10 ^ ndigits) / q.den` is rounded
half-to-even and scaled back. -/
def pyRound (q : Rat) (ndigits : Nat) : Rat :=
  mkRat (roundHalfEvenInt (q.num * (10 : Int) ^ ndigits) (q.den : Int))
    ((10 : Nat) ^ ndigits)

/-! ### Enumerations (src/core/models.py) -/

/-- `InstrumentType` enum from src/core/models.py. -/
inductive InstrumentType where
  | ETF
  | FUND
  | UNKNOWN
deriving DecidableEq

/-- `DistributionPolicy` enum from src/core/models.py. -/
inductive DistributionPolicy where
  | ACC
  | DIST
  | UNKNOWN
deriving DecidableEq

/-! ### Performance and risk vectors (src/core/models.py) -/

/-- `PerformanceData` dataclass: optional returns over ten horizons. -/
structure PerformanceData where
  return_1m : Option Rat := none
  return_3m : Option Rat := none
  return_6m : Option Rat := none
  ytd : Option Rat := none
  return_1y : Option Rat := none
  return_3y : Option Rat := none
  return_5y : Option Rat := none
  return_7y : Option Rat := none
  return_9y : Option Rat := none
  return_10y : Option Rat := none
deriving DecidableEq

/-- `RiskMetrics` dataclass. -/
structure RiskMetrics where
  volatility_1y : Option Rat := none
  volatility_3y : Option Rat := none
  volatility_5y : Option Rat := none
  sharpe_ratio_3y : Option Rat := none
  max_drawdown : Option Rat := none
deriving DecidableEq

/-- `SourceRecord` dataclass: one raw observation from one source.  The
`raw_data` dictionary and the datetime fields `inception_date` and
`retrieved_at` play no role in any merge or comparison logic and are omitted
from the embedding. -/
structure SourceRecord where
  isin : String
  name : String
  source : String
  instrument_type : InstrumentType := .UNKNOWN
  currency : String := "EUR"
  domicile : Option String := none
  distribution : DistributionPolicy := .UNKNOWN
  category_morningstar : Option String := none
  category_assogestioni : Option String := none
  ter : Option Rat := none
  aum : Option Rat := none
  performance : PerformanceData := {}
  risk : RiskMetrics := {}
deriving DecidableEq

/-- `AggregatedInstrument` dataclass: the merge output, one per unique ISIN.
`last_updated` (a wall-clock datetime) is modelled as a natural number and is
irrelevant to every property proved below. -/
structure AggregatedInstrument where
  isin : String
  name : String
  instrument_type : InstrumentType := .UNKNOWN
  currency : String := "EUR"
  domicile : Option String := none
  distribution : DistributionPolicy := .UNKNOWN
  category_morningstar : Option String := none
  category_assogestioni : Option String := none
  perf_1m_eur : Option Rat := none
  perf_3m_eur : Option Rat := none
  perf_6m_eur : Option Rat := none
  perf_ytd_eur : Option Rat := none
  perf_1y_eur : Option Rat := none
  perf_3y_eur : Option Rat := none
  perf_5y_eur : Option Rat := none
  perf_7y_eur : Option Rat := none
  perf_9y_eur : Option Rat := none
  perf_10y_eur : Option Rat := none
  volatility_1y : Option Rat := none
  volatility_3y : Option Rat := none
  sharpe_ratio_3y : Option Rat := none
  sources : List String := []
  data_quality_score : Rat := 0
  last_updated : Nat := 0
deriving DecidableEq

instance : Inhabited AggregatedInstrument := ⟨{ isin := "", name := "" }⟩

/-- `AggregatedInstrument.get_performance_by_period`: dictionary lookup,
returning `None` for an unknown period code. -/
def AggregatedInstrument.get_performance_by_period
    (a : AggregatedInstrument) (period : String) : Option Rat :=
  if period = "1m" then a.perf_1m_eur
  else if period = "3m" then a.perf_3m_eur
  else if period = "6m" then a.perf_6m_eur
  else if period = "ytd" then a.perf_ytd_eur
  else if period = "1y" then a.perf_1y_eur
  else if period = "3y" then a.perf_3y_eur
  else if period = "5y" then a.perf_5y_eur
  else if period = "7y" then a.perf_7y_eur
  else if period = "9y" then a.perf_9y_eur
  else if period = "10y" then a.perf_10y_eur
  else none

/-- `UniverseInstrument` dataclass (src/core/models.py, v3.0): an instrument
loaded from the user's spreadsheet.  Note that it has fields
`category_morningstar` and `category_sfdr` but no field named `category`. -/
structure UniverseInstrument where
  isin : String
  name : Option String := none
  category_morningstar : Option String := none
  category_sfdr : Option String := none
  perf_ytd : Option Rat := none
  perf_1m : Option Rat := none
  perf_3m : Option Rat := none
  perf_6m : Option Rat := none
  perf_1y : Option Rat := none
  perf_3y : Option Rat := none
  perf_5y : Option Rat := none
  perf_7y : Option Rat := none
  perf_9y : Option Rat := none
  perf_10y : Option Rat := none
  perf_custom : Option Rat := none
  ter : Option Rat := none
  var_3m : Option Rat := none
  market_price_5y : Option Rat := none
  source_row : Nat := 0
deriving DecidableEq

/-- `UniverseInstrument.get_performance_by_period`. -/
def UniverseInstrument.get_performance_by_period
    (u : UniverseInstrument) (period : String) : Option Rat :=
  if period = "1m" then u.perf_1m
  else if period = "3m" then u.perf_3m
  else if period = "6m" then u.perf_6m
  else if period = "ytd" then u.perf_ytd
  else if period = "1y" then u.perf_1y
  else if period = "3y" then u.perf_3y
  else if period = "5y" then u.perf_5y
  else if period = "7y" then u.perf_7y
  else if period = "9y" then u.perf_9y
  else if period = "10y" then u.perf_10y
  else none

/-! ### Identifier validation

Three equivalent ISIN validators appear in the source.  All use the regular
expression `^[A-Z]\x7b2\x7d[A-Z0-9]\x7b9\x7d[0-9]$`. -/

/-- Character class `[A-Z]`. -/
def isUpperAZ (c : Char) : Bool := 'A' ≤ c && c ≤ 'Z'

/-- Character class `[0-9]`. -/
def isDigit09 (c : Char) : Bool := '0' ≤ c && c ≤ '9'

/-- Character class `[A-Z0-9]`. -/
def isUpperAlnum (c : Char) : Bool := isUpperAZ c || isDigit09 c

/-- Match of the anchored ISIN regular expression: exactly two uppercase
letters, nine uppercase alphanumerics, one digit. -/
def isinPatternMatch (s : String) : Bool :=
  match s.toList with
  | [a, b, c1, c2, c3, c4, c5, c6, c7, c8, c9, d] =>
      isUpperAZ a && isUpperAZ b &&
      (isUpperAlnum c1 && isUpperAlnum c2 && isUpperAlnum c3 &&
       isUpperAlnum c4 && isUpperAlnum c5 && isUpperAlnum c6 &&
       isUpperAlnum c7 && isUpperAlnum c8 && isUpperAlnum c9) &&
      isDigit09 d
  | _ => false

/-- `validate_isin` from src/utils/validators.py: reject empty or non-12-char
strings, then match the pattern against the upper-cased input. -/
def validate_isin (isin : String) : Bool :=
  if isin = "" || isin.length ≠ 12 then false
  else isinPatternMatch (pyUpper isin)

/-- `validate_isin` from src/core/universe_loader.py: reject empty or
non-12-char strings, then match the pattern against the stripped and
upper-cased input.  Used by the benchmark resolver. -/
def loader_validate_isin (isin : String) : Bool :=
  if isin = "" || isin.length ≠ 12 then false
  else isinPatternMatch (pyUpper (pyStrip isin))

namespace DataMerger

/-! ### Record merger (src/aggregator/data_merger.py) -/

/-- `DataMerger._validate_isin`: applied to the already-normalized ISIN. -/
def merger_validate_isin (isin : String) : Bool :=
  if isin = "" || isin.length ≠ 12 then false
  else isinPatternMatch isin

/-- ISIN normalization used by `DataMerger.merge`:
`record.isin.strip().upper() if record.isin else ""`. -/
def normalizeIsin (isin : String) : String :=
  if isin = "" then "" else pyUpper (pyStrip isin)

/-- Append a record to the group of key `k`, or open a new group at the end.
This is the effect of `by_isin[k].append(r)` on a `defaultdict(list)`:
insertion-ordered keys, encounter-ordered members. -/
def insertGroup (gs : List (String × List SourceRecord)) (k : String)
    (r : SourceRecord) : List (String × List SourceRecord) :=
  match gs with
  | [] => [(k, [r])]
  | (k0, rs) :: t =>
      if k0 = k then (k0, rs ++ [r]) :: t else (k0, rs) :: insertGroup t k r

/-- The grouping loop of `DataMerger.merge`: normalize each ISIN, skip records
whose normalized ISIN fails validation (logged in the source), group the
survivors by normalized ISIN. -/
def groupValid (records : List SourceRecord) :
    List (String × List SourceRecord) :=
  records.foldl
    (fun gs r =>
      let n := normalizeIsin r.isin
      if merger_validate_isin n then insertGroup gs n r else gs)
    []

/-- Sort key of `_merge_records`:
`priority.index(r.source) if r.source in priority else 999`. -/
def priorityRank (priority : List String) (source : String) : Nat :=
  match priority.indexOf? source with
  | some i => i
  | none => 999

/-- The stable priority sort of `_merge_records`.  Python `sorted` is a
stable sort, so any stable sort is an extensionally faithful model; we use
`List.insertionSort`, which is stable with the same tie behaviour. -/
def sortByPriority (records : List SourceRecord) (priority : List String) :
    List SourceRecord :=
  @List.insertionSort SourceRecord
    (fun a b => priorityRank priority a.source ≤ priorityRank priority b.source)
    (fun a b =>
      Nat.decLe (priorityRank priority a.source) (priorityRank priority b.source))
    records

/-- `DataMerger._best_value`: the first non-null value. -/
def best_value (values : List (Option Rat)) : Option Rat :=
  match values with
  | [] => none
  | some v :: _ => some v
  | none :: t => best_value t

/-- `DataMerger._first_non_null`: the first truthy string, i.e. the first
value that is neither `None` nor the empty string. -/
def first_non_null (values : List (Option String)) : Option String :=
  match values with
  | [] => none
  | some v :: t => if v = "" then first_non_null t else some v
  | none :: t => first_non_null t

/-- `DataMerger._best_distribution`: the first value different from
`UNKNOWN`, else `UNKNOWN` (enum members are always truthy in Python). -/
def best_distribution (values : List DistributionPolicy) : DistributionPolicy :=
  match values with
  | [] => .UNKNOWN
  | v :: t => if v ≠ DistributionPolicy.UNKNOWN then v else best_distribution t

/-- `DataMerger._best_instrument_type`: same scan for the instrument type. -/
def best_instrument_type (values : List InstrumentType) : InstrumentType :=
  match values with
  | [] => .UNKNOWN
  | v :: t => if v ≠ InstrumentType.UNKNOWN then v else best_instrument_type t

/-- A dynamically-typed Python value as it appears in the `*values` tuple of
`_calculate_quality_score`: the call site mixes optional floats, an optional
string and an `int`. -/
inductive PyVal where
  | vNone
  | vFloat (q : Rat)
  | vStr (s : String)
  | vInt (n : Nat)
deriving DecidableEq

/-- Lift an optional float into the `*values` tuple. -/
def PyVal.ofFloat : Option Rat → PyVal
  | none => .vNone
  | some q => .vFloat q

/-- Lift an optional string into the `*values` tuple. -/
def PyVal.ofStr : Option String → PyVal
  | none => .vNone
  | some s => .vStr s

/-- `DataMerger._calculate_quality_score(self, *values, num_sources=1)`:
`min(100, completeness * 70 + source_bonus)` with
`completeness = non_null / len(values)` (0 when `values` is empty) and
`source_bonus = min(num_sources * 10, 30)`.  `num_sources` is a keyword-only
parameter because it follows `*values`. -/
def calculate_quality_score (values : List PyVal) (num_sources : Nat) : Rat :=
  let non_null : Nat := (values.filter (fun v => v ≠ PyVal.vNone)).length
  let completeness : Rat :=
    if values.length = 0 then 0 else (non_null : Rat) / (values.length : Rat)
  let source_bonus : Rat := min ((num_sources : Rat) * 10) 30
  min 100 (completeness * 70 + source_bonus)

/-- `DataMerger._merge_records` for one ISIN group.  Returns `none` exactly
when the group is empty, in which case the Python code would raise
`IndexError` at `sorted_records[0]`; the caller catches and skips such a
group, which the caller-side `filterMap` reproduces.

The quality-score call site passes nine arguments positionally:
`self._calculate_quality_score(perf_ytd, perf_1y, perf_3y, perf_5y, perf_10y,
vol_3y, sharpe, cat_ms, len(sources))`.  Since `num_sources` is keyword-only,
`len(sources)` is absorbed into `values` and `num_sources` keeps its default
value `1`.

Python's `list(set(...))` for `sources` has unspecified order; we model it as
the deduplicated list of sources in encounter order, which has the same
elements and the same length. -/
def merge_records (isin : String) (records : List SourceRecord)
    (priority : List String) : Option AggregatedInstrument :=
  match sortByPriority records priority with
  | [] => none
  | primary :: _ =>
      let sorted_records := sortByPriority records priority
      let sources := (records.map (·.source)).eraseDups
      let perf_ytd := best_value (sorted_records.map (·.performance.ytd))
      let perf_1y := best_value (sorted_records.map (·.performance.return_1y))
      let perf_3y := best_value (sorted_records.map (·.performance.return_3y))
      let perf_5y := best_value (sorted_records.map (·.performance.return_5y))
      let perf_7y := best_value (sorted_records.map (·.performance.return_7y))
      let perf_10y := best_value (sorted_records.map (·.performance.return_10y))
      let vol_1y := best_value (sorted_records.map (·.risk.volatility_1y))
      let vol_3y := best_value (sorted_records.map (·.risk.volatility_3y))
      let sharpe := best_value (sorted_records.map (·.risk.sharpe_ratio_3y))
      let cat_ms := first_non_null (sorted_records.map (·.category_morningstar))
      let cat_ag := first_non_null (sorted_records.map (·.category_assogestioni))
      let domicile := first_non_null (sorted_records.map (·.domicile))
      let distribution := best_distribution (sorted_records.map (·.distribution))
      let inst_type := best_instrument_type (sorted_records.map (·.instrument_type))
      let quality := calculate_quality_score
        [PyVal.ofFloat perf_ytd, PyVal.ofFloat perf_1y, PyVal.ofFloat perf_3y,
         PyVal.ofFloat perf_5y, PyVal.ofFloat perf_10y, PyVal.ofFloat vol_3y,
         PyVal.ofFloat sharpe, PyVal.ofStr cat_ms, PyVal.vInt sources.length] 1
      some
        { isin := isin
          name := primary.name
          instrument_type := inst_type
          currency := primary.currency
          domicile := domicile
          distribution := distribution
          category_morningstar := cat_ms
          category_assogestioni := cat_ag
          perf_ytd_eur := perf_ytd
          perf_1y_eur := perf_1y
          perf_3y_eur := perf_3y
          perf_5y_eur := perf_5y
          perf_7y_eur := perf_7y
          perf_10y_eur := perf_10y
          volatility_1y := vol_1y
          volatility_3y := vol_3y
          sharpe_ratio_3y := sharpe
          sources := sources
          data_quality_score := quality
          last_updated := 0 }

/-- `DataMerger.merge`: group the valid records by normalized ISIN and merge
each group.  The per-group `try/except` that logs and skips a failing group is
reproduced by `filterMap` over the `Option` result of `merge_records`. -/
def merge (records : List SourceRecord) (priority : List String) :
    List AggregatedInstrument :=
  if records = [] then []
  else (groupValid records).filterMap (fun g => merge_records g.1 g.2 priority)

end DataMerger

namespace Calc

/-! ### Comparison calculator (src/core/comparison_calculator.py) -/

/-- `ComparisonResult` dataclass of src/core/comparison_calculator.py:
one fund versus the ETF benchmark at a single period. -/
structure ComparisonResult where
  instrument : UniverseInstrument
  etf_performance : Option Rat
  fund_performance : Option Rat
  delta : Option Rat
  beats_etf : Option Bool
deriving DecidableEq

/-- `ComparisonReport` dataclass of src/core/comparison_calculator.py. -/
structure ComparisonReport where
  etf_benchmark : UniverseInstrument
  period : String
  period_label : String
  results : List ComparisonResult := []
deriving DecidableEq

/-- Property `total_funds`. -/
def ComparisonReport.total_funds (rep : ComparisonReport) : Nat :=
  rep.results.length

/-- Property `funds_beating_etf`. -/
def ComparisonReport.funds_beating_etf (rep : ComparisonReport) : Nat :=
  (rep.results.filter (fun r => r.beats_etf = some true)).length

/-- Property `funds_not_beating_etf`. -/
def ComparisonReport.funds_not_beating_etf (rep : ComparisonReport) : Nat :=
  (rep.results.filter (fun r => r.beats_etf = some false)).length

/-- Property `funds_no_data`. -/
def ComparisonReport.funds_no_data (rep : ComparisonReport) : Nat :=
  (rep.results.filter (fun r => r.beats_etf = none)).length

/-- Property `avg_delta`: mean over the non-null deltas, `None` if there are
none. -/
def ComparisonReport.avg_delta (rep : ComparisonReport) : Option Rat :=
  let deltas := rep.results.filterMap (·.delta)
  if deltas = [] then none
  else some (deltas.sum / (deltas.length : Rat))

/-- Property `beat_percentage`: share of beating funds among funds with data,
0 when no fund has data. -/
def ComparisonReport.beat_percentage (rep : ComparisonReport) : Rat :=
  let with_data := rep.funds_beating_etf + rep.funds_not_beating_etf
  if 0 < with_data then
    ((rep.funds_beating_etf : Rat) / (with_data : Rat)) * 100
  else 0

/-- Sort key of `get_sorted_results`:
`r.delta if r.delta is not None else 0.0`. -/
def sortKey (r : ComparisonResult) : Rat := r.delta.getD 0

/-- Comparison relation used by `get_sorted_results`: ascending order on the
sort key, or the flipped relation for `reverse=True`. -/
def sortRel (ascending : Bool) (a b : ComparisonResult) : Prop :=
  if ascending then sortKey a ≤ sortKey b else sortKey b ≤ sortKey a

instance (ascending : Bool) : DecidableRel (sortRel ascending) := fun a b => by
  unfold sortRel
  exact inferInstance

/-- `ComparisonReport.get_sorted_results`: split off the null-delta results,
stably sort the rest by delta (`reverse = not ascending`), append the
null-delta results in their original order.  Python `sorted` is a stable
sort and with `reverse=True` keeps equal-key elements in input order, which
is exactly a stable sort under the flipped comparison; `List.insertionSort`
is stable. -/
def ComparisonReport.get_sorted_results (rep : ComparisonReport)
    (ascending : Bool) : List ComparisonResult :=
  let with_delta := rep.results.filter (fun r => r.delta.isSome)
  let without_delta := rep.results.filter (fun r => r.delta.isNone)
  let sorted_with_delta := List.insertionSort (sortRel ascending) with_delta
  sorted_with_delta ++ without_delta

/-- `compare_universe_vs_etf`: for each fund other than the benchmark itself,
compute the delta (rounded to 4 digits) and the outcome when both operands
are present, and a null delta with indeterminate outcome otherwise. -/
def compare_universe_vs_etf (univ : List UniverseInstrument)
    (etf_benchmark : UniverseInstrument) (period : String)
    (period_label : String) : ComparisonReport :=
  let etf_perf := etf_benchmark.get_performance_by_period period
  let results := (univ.filter (fun f => f.isin ≠ etf_benchmark.isin)).map
    (fun fund =>
      let fund_perf := fund.get_performance_by_period period
      match etf_perf, fund_perf with
      | some e, some f =>
          let delta := pyRound (f - e) 4
          { instrument := fund
            etf_performance := etf_perf
            fund_performance := fund_perf
            delta := some delta
            beats_etf := some (decide (0 < delta)) }
      | _, _ =>
          { instrument := fund
            etf_performance := etf_perf
            fund_performance := fund_perf
            delta := none
            beats_etf := none })
  { etf_benchmark := etf_benchmark
    period := period
    period_label := period_label
    results := results }

end Calc

namespace Models

/-! ### Report-level comparison results (src/core/models.py, v3.0) -/

/-- `ComparisonResult` dataclass of src/core/models.py: one instrument paired
with a benchmark, carrying per-period deltas. -/
structure ComparisonResult where
  instrument : AggregatedInstrument
  origin : String
  benchmark_isin : Option String := none
  delta_1m : Option Rat := none
  delta_3m : Option Rat := none
  delta_6m : Option Rat := none
  delta_ytd : Option Rat := none
  delta_1y : Option Rat := none
  delta_3y : Option Rat := none
  delta_5y : Option Rat := none
  delta_7y : Option Rat := none
  delta_9y : Option Rat := none
  delta_10y : Option Rat := none
deriving DecidableEq

/-- `ComparisonResult.get_delta_by_period`. -/
def ComparisonResult.get_delta_by_period (r : ComparisonResult)
    (period : String) : Option Rat :=
  if period = "1m" then r.delta_1m
  else if period = "3m" then r.delta_3m
  else if period = "6m" then r.delta_6m
  else if period = "ytd" then r.delta_ytd
  else if period = "1y" then r.delta_1y
  else if period = "3y" then r.delta_3y
  else if period = "5y" then r.delta_5y
  else if period = "7y" then r.delta_7y
  else if period = "9y" then r.delta_9y
  else if period = "10y" then r.delta_10y
  else none

/-- `ComparisonResult.is_outperformer(period="3y", threshold=0.5)`:
`None` when the delta is missing, else `delta > threshold`. -/
def ComparisonResult.is_outperformer (r : ComparisonResult)
    (period : String) (threshold : Rat) : Option Bool :=
  match r.get_delta_by_period period with
  | none => none
  | some delta => some (decide (threshold < delta))

/-- The statistics fields of `ComparisonReport` that
`calculate_statistics` mutates, gathered in one record; their dataclass
defaults are the values left in place by the early return on an empty result
list. -/
structure ReportStats where
  total_instruments : Nat := 0
  universe_count : Nat := 0
  market_count : Nat := 0
  outperformers_count : Nat := 0
  underperformers_count : Nat := 0
  avg_delta : List (String × Rat) := []
  best_performer : Option ComparisonResult := none
  worst_performer : Option ComparisonResult := none
deriving DecidableEq

/-- `ComparisonReport.calculate_statistics(reference_period="3y")` as a pure
function of the result list.  Outperformer and underperformer counts are
taken over universe-origin results only, with thresholds `0.5` and `-0.5`;
average deltas are taken over non-null deltas only; best and worst performer
come from the stable descending sort of the non-null reference deltas. -/
def calculate_statistics (results : List ComparisonResult)
    (reference_period : String) : ReportStats :=
  if results = [] then {}
  else
    let universe_results := results.filter (fun r => r.origin = "universe")
    let periods := ["1m", "3m", "6m", "ytd", "1y", "3y", "5y", "7y", "9y", "10y"]
    let avg := periods.foldl
      (fun acc p =>
        let deltas := universe_results.filterMap (·.get_delta_by_period p)
        if deltas = [] then acc
        else acc ++ [(p, deltas.sum / (deltas.length : Rat))])
      []
    let ref_deltas := universe_results.filterMap
      (fun r => (r.get_delta_by_period reference_period).map (fun d => (r, d)))
    let sorted_ref := @List.insertionSort (ComparisonResult × Rat)
      (fun a b => b.2 ≤ a.2)
      (fun a b => inferInstanceAs (Decidable (b.2 ≤ a.2))) ref_deltas
    { total_instruments := results.length
      universe_count := universe_results.length
      market_count := (results.filter (fun r => r.origin = "market")).length
      outperformers_count :=
        (universe_results.filter
          (fun r => r.is_outperformer reference_period (1/2) = some true)).length
      underperformers_count :=
        (universe_results.filter
          (fun r => r.is_outperformer reference_period (-(1/2)) = some false)).length
      avg_delta := avg
      best_performer := sorted_ref.head?.map (·.1)
      worst_performer := sorted_ref.getLast?.map (·.1) }

end Models

namespace Engine

/-! ### Comparison engine category filter (src/orchestrator/comparison_engine.py) -/

/-- A Python exception as it can escape `_filter_universe_by_category`. -/
inductive PyExn where
  | attributeError (attr : String)
deriving DecidableEq

/-- `CATEGORY_MAPPING` from src/config.py: static Assogestioni to
Morningstar category translation table, in declaration order. -/
def CATEGORY_MAPPING : List (String × List String) :=
  [("AZ. AMERICA",
    ["Azionari USA Large Cap Blend", "Azionari USA Large Cap Growth",
     "Azionari USA Large Cap Value"]),
   ("AZ. AREA EURO",
    ["Azionari Europa Large Cap Blend", "Azionari Eurozona Large Cap"]),
   ("AZ. EUROPA",
    ["Azionari Europa Large Cap Blend", "Azionari Europa Large Cap Growth",
     "Azionari Europa Large Cap Value"]),
   ("AZ. INTERNAZIONALI",
    ["Azionari Globali Large Cap Blend", "Azionari Globali Large Cap Growth",
     "Azionari Globali Large Cap Value"]),
   ("AZ. ITALIA", ["Azionari Italia"]),
   ("AZ. PACIFICO",
    ["Azionari Asia-Pacifico ex-Giappone", "Azionari Giappone Large Cap"]),
   ("AZ. PAESI EMERGENTI", ["Azionari Paesi Emergenti"]),
   ("AZ. SETTORE TECNOLOGIA", ["Azionari Settore Tecnologia"]),
   ("AZ. SALUTE", ["Azionari Settore Salute"]),
   ("AZ. ENERGIA E MAT. PRIME",
    ["Azionari Settore Energia", "Azionari Settore Risorse Naturali"]),
   ("BILANCIATI", ["Bilanciati EUR Moderati", "Bilanciati Globali"]),
   ("BILANCIATI AZIONARI", ["Bilanciati EUR Aggressivi"]),
   ("BILANCIATI OBBLIGAZIONARI", ["Bilanciati EUR Prudenti"]),
   ("FLESSIBILI", ["Flessibili EUR", "Flessibili Globali"]),
   ("OBBL. EURO CORPORATE INV. GRADE", ["Obbligazionari EUR Corporate"]),
   ("OBBL. EURO GOV. BREVE TERMINE", ["Obbligazionari EUR Governativi"]),
   ("OBBL. EURO GOV. M/L TERMINE",
    ["Obbligazionari EUR Governativi", "Obbligazionari EUR Diversificati"]),
   ("OBBL. EURO HIGH YIELD", ["Obbligazionari EUR High Yield"]),
   ("OBBL. EURO MISTI", ["Obbligazionari EUR Diversificati"]),
   ("OBBL. INTERNAZIONALI", ["Obbligazionari Globali"]),
   ("OBBL. INTERNAZIONALI GOV.", ["Obbligazionari Globali"]),
   ("OBBL. INTERNAZIONALI CORPORATE", ["Obbligazionari USD Corporate"]),
   ("OBBL. PAESI EMERGENTI", ["Obbligazionari Mercati Emergenti"]),
   ("FONDI DI LIQUIDITA\x27 AREA EURO", ["Monetari EUR"])]

/-- Access to the attribute `inst.category` read by
`ComparisonEngine._filter_universe_by_category`.  The `UniverseInstrument`
dataclass in src/core/models.py defines no attribute named `category` (its
category fields are `category_morningstar` and `category_sfdr`), so in Python
every such access raises `AttributeError`. -/
def getattrCategory (_ : UniverseInstrument) : Except PyExn (Option String) :=
  .error (PyExn.attributeError "category")

/-- `ComparisonEngine._filter_universe_by_category`: exact case-insensitive
match, else substring match in either direction on `inst.category`; when that
yields nothing and the taxonomy is `morningstar`, re-filter through the
inverse of `CATEGORY_MAPPING`.  Each iteration reads `inst.category`, and the
`Except` monad propagates the `AttributeError` exactly as Python does (the
method has no `try/except`). -/
def filter_universe_by_category (univ : List UniverseInstrument)
    (category : String) (category_type : String) :
    Except PyExn (List UniverseInstrument) := do
  let category_lower := pyLower category
  let mut filtered : List UniverseInstrument := []
  for inst in univ do
    match ← getattrCategory inst with
    | some instCat =>
        if instCat ≠ "" then
          if pyLower instCat = category_lower then
            filtered := filtered ++ [inst]
          else if pyInStr category_lower (pyLower instCat) then
            filtered := filtered ++ [inst]
          else if pyInStr (pyLower instCat) category_lower then
            filtered := filtered ++ [inst]
    | none => pure ()
  if filtered = [] && category_type = "morningstar" then
    for entry in CATEGORY_MAPPING do
      let asso_cat := entry.1
      let ms_cats := entry.2
      if category ∈ ms_cats then
        for inst in univ do
          match ← getattrCategory inst with
          | some instCat =>
              if instCat ≠ "" then
                if pyInStr (pyLower asso_cat) (pyLower instCat) then
                  filtered := filtered ++ [inst]
          | none => pure ()
  return filtered

end Engine

namespace Benchmark

/-! ### Benchmark resolver and cache (src/core/etf_benchmark.py) -/

/-- One entry of the module-level `_etf_cache` dictionary. -/
structure CacheEntry where
  data : UniverseInstrument
  timestamp : Nat
deriving DecidableEq

/-- The `_etf_cache` dictionary, keyed by upper-cased ISIN, modelled as an
insertion-ordered association list. -/
abbrev EtfCache := List (String × CacheEntry)

/-- `_cache_ttl`: 24 hours in seconds. -/
def cache_ttl : Nat := 86400

/-- Dictionary read `_etf_cache.get(k)`: the entry of the first (and, keys
being unique, only) pair with the given key. -/
def cacheGet (cache : EtfCache) (k : String) : Option CacheEntry :=
  match cache with
  | [] => none
  | e :: t => if e.1 = k then some e.2 else cacheGet t k

/-- Dictionary deletion `del _etf_cache[k]`. -/
def cacheDel (cache : EtfCache) (k : String) : EtfCache :=
  cache.filter (fun e => e.1 ≠ k)

/-- Dictionary write `_etf_cache[k] = v`: replace in place, else append. -/
def cacheSet (cache : EtfCache) (k : String) (v : CacheEntry) : EtfCache :=
  if (cache.find? (fun e => e.1 = k)).isSome then
    cache.map (fun e => if e.1 = k then (k, v) else e)
  else cache ++ [(k, v)]

/-- `find_etf_in_cache`: hit when the entry exists and is younger than the
TTL; an expired entry is deleted.  The wall clock `time()` is passed
explicitly as `now`. -/
def find_etf_in_cache (cache : EtfCache) (now : Nat) (isin : String) :
    Option UniverseInstrument × EtfCache :=
  let isin_upper := pyUpper (pyStrip isin)
  match cacheGet cache isin_upper with
  | some entry =>
      if now - entry.timestamp < cache_ttl then (some entry.data, cache)
      else (none, cacheDel cache isin_upper)
  | none => (none, cache)

/-- `add_etf_to_cache`. -/
def add_etf_to_cache (cache : EtfCache) (now : Nat) (isin : String)
    (etf_data : UniverseInstrument) : EtfCache :=
  cacheSet cache (pyUpper (pyStrip isin)) ⟨etf_data, now⟩

/-- `find_etf_in_universe`: first instrument with an exactly matching ISIN. -/
def find_etf_in_universe (isin : String) (univ : List UniverseInstrument) :
    Option UniverseInstrument :=
  let isin_upper := pyUpper (pyStrip isin)
  univ.find? (fun inst => inst.isin = isin_upper)

/-- `_has_useful_performance`: the scraper result exists and carries at least
one of the 1-year, 3-year or 5-year returns. -/
def has_useful_performance (result : Option SourceRecord) : Bool :=
  match result with
  | none => false
  | some r =>
      r.performance.return_1y.isSome || r.performance.return_3y.isSome ||
      r.performance.return_5y.isSome

/-- Outcome of one scraper call `scraper.get_by_isin(isin)`: either a value
(possibly `None`) or a raised exception.  The network interaction itself is
external to the core and enters the model as an oracle. -/
inductive ScrapeOutcome where
  | ok (result : Option SourceRecord)
  | exn
deriving DecidableEq

/-- The dictionary built by `get_etf_from_external_sources` from an accepted
scraper result. -/
structure ExternalData where
  name : String
  category_morningstar : Option String
  perf_ytd_eur : Option Rat
  perf_1m_eur : Option Rat
  perf_3m_eur : Option Rat
  perf_6m_eur : Option Rat
  perf_1y_eur : Option Rat
  perf_3y_eur : Option Rat
  perf_5y_eur : Option Rat
  perf_7y_eur : Option Rat
  perf_9y_eur : Option Rat
  perf_10y_eur : Option Rat
deriving DecidableEq

/-- Field selection building the external-data dictionary from a scraper
record. -/
def toExternalData (r : SourceRecord) : ExternalData :=
  { name := r.name
    category_morningstar := r.category_morningstar
    perf_ytd_eur := r.performance.ytd
    perf_1m_eur := r.performance.return_1m
    perf_3m_eur := r.performance.return_3m
    perf_6m_eur := r.performance.return_6m
    perf_1y_eur := r.performance.return_1y
    perf_3y_eur := r.performance.return_3y
    perf_5y_eur := r.performance.return_5y
    perf_7y_eur := r.performance.return_7y
    perf_9y_eur := r.performance.return_9y
    perf_10y_eur := r.performance.return_10y }

/-- `get_etf_from_external_sources`: try JustETF first, accept only a result
with useful performance; on a miss, an exception, or a performance-free
result, fall back to Morningstar under the same acceptance rule. -/
def get_etf_from_external_sources (justetf_outcome morningstar_outcome :
    ScrapeOutcome) : Option ExternalData :=
  let fromJustetf : Option ExternalData :=
    match justetf_outcome with
    | .ok (some r) =>
        if has_useful_performance (some r) then some (toExternalData r) else none
    | _ => none
  match fromJustetf with
  | some d => some d
  | none =>
      match morningstar_outcome with
      | .ok (some r) =>
          if has_useful_performance (some r) then some (toExternalData r)
          else none
      | _ => none

/-- Conversion of an accepted external-data dictionary into the
`UniverseInstrument` returned by `get_etf_benchmark`; `external_data.get` with
the listed keys. -/
def externalToInstrument (isin_upper : String) (ed : ExternalData) :
    UniverseInstrument :=
  { isin := isin_upper
    name := some ed.name
    category_morningstar := ed.category_morningstar
    perf_ytd := ed.perf_ytd_eur
    perf_1m := ed.perf_1m_eur
    perf_3m := ed.perf_3m_eur
    perf_6m := ed.perf_6m_eur
    perf_1y := ed.perf_1y_eur
    perf_3y := ed.perf_3y_eur
    perf_5y := ed.perf_5y_eur
    perf_7y := ed.perf_7y_eur
    perf_9y := ed.perf_9y_eur
    perf_10y := ed.perf_10y_eur }

/-- `get_etf_benchmark(isin, universe, use_cache=True)`: validate the ISIN
(returning `None` immediately on failure), then look up the loaded universe,
then the cache, then the external sources; an accepted external result is
written into the cache before being returned.  The cache is threaded
explicitly, and the scraper calls enter as oracle outcomes. -/
def get_etf_benchmark (isin : String) (univ : List UniverseInstrument)
    (cache : EtfCache) (now : Nat)
    (justetf_outcome morningstar_outcome : ScrapeOutcome)
    (use_cache : Bool) : Option UniverseInstrument × EtfCache :=
  if ¬ loader_validate_isin isin then (none, cache)
  else
    let isin_upper := pyUpper (pyStrip isin)
    match find_etf_in_universe isin_upper univ with
    | some etf => (some etf, cache)
    | none =>
        let lookup :=
          if use_cache then find_etf_in_cache cache now isin_upper
          else (none, cache)
        match lookup.1 with
        | some etf => (some etf, lookup.2)
        | none =>
            match get_etf_from_external_sources justetf_outcome
                morningstar_outcome with
            | some ed =>
                let etf := externalToInstrument isin_upper ed
                (some etf, add_etf_to_cache lookup.2 now isin_upper etf)
            | none => (none, lookup.2)

end Benchmark

/-! ### Spec-side descriptions

Definitions in this section follow the wording of the specification; the
theorems below compare them with the embedded source functions. -/

/-- The first non-null value of a scan, as the specification words it. -/
def firstSome {α : Type} (l : List (Option α)) : Option α :=
  (l.filterMap id).head?

/-- The first present, non-empty string of a scan. -/
def firstTruthyStr (l : List (Option String)) : Option String :=
  ((l.filterMap id).filter (fun s => s ≠ "")).head?

/-- The identifier shape as the specification words it: 12 characters, the
first two uppercase letters, the next nine uppercase letters or digits, the
last a decimal digit. -/
def isinShape (s : String) : Bool :=
  decide (s.length = 12) &&
  ((s.toList.take 2).all fun c => decide ('A' ≤ c) && decide (c ≤ 'Z')) &&
  (((s.toList.drop 2).take 9).all fun c =>
    (decide ('A' ≤ c) && decide (c ≤ 'Z')) ||
    (decide ('0' ≤ c) && decide (c ≤ '9'))) &&
  ((s.toList.drop 11).all fun c => decide ('0' ≤ c) && decide (c ≤ '9'))

/-- The distinct valid normalized identifiers of an input batch, in order of
first appearance. -/
def distinctValidIsins (records : List SourceRecord) : List String :=
  records.foldl
    (fun ks r =>
      let n := DataMerger.normalizeIsin r.isin
      if DataMerger.merger_validate_isin n then
        (if n ∈ ks then ks else ks ++ [n])
      else ks)
    []

/-! ### Supporting lemmas about the merger scans -/

theorem best_value_eq_firstSome (l : List (Option Rat)) :
    DataMerger.best_value l = firstSome l := by
  induction l with
  | nil => rfl
  | cons h t ih =>
      cases h with
      | none => simpa [DataMerger.best_value, firstSome] using ih
      | some v => simp [DataMerger.best_value, firstSome]

theorem first_non_null_eq_firstTruthy (l : List (Option String)) :
    DataMerger.first_non_null l = firstTruthyStr l := by
  induction l with
  | nil => rfl
  | cons h t ih =>
      cases h with
      | none => simpa [DataMerger.first_non_null, firstTruthyStr] using ih
      | some v =>
          by_cases hv : v = ""
          · subst hv
            simpa [DataMerger.first_non_null, firstTruthyStr] using ih
          · simp [DataMerger.first_non_null, firstTruthyStr, hv]

theorem pyRound_intCast (n : Int) (d : Nat) :
    pyRound (n : Rat) d = (n : Rat) := by
  unfold pyRound roundHalfEvenInt
  simp only [Rat.num_intCast, Rat.den_intCast, Nat.cast_one, Int.fdiv_one,
    Int.fmod_one]
  norm_num
  rw [Rat.mkRat_eq_div]
  push_cast
  rw [mul_div_assoc, div_self (by positivity : ((10 : Rat)) ^ d ≠ 0), mul_one]

/-! ### C1: data-quality score -/

/-- A record carrying nothing but the mandatory fields, from a given
source. -/
def c1record (src : String) : SourceRecord :=
  { isin := "IE00B4L5Y983", name := "Fund", source := src }

/-- Three records for the same ISIN from three distinct sources. -/
def c1records : List SourceRecord :=
  [c1record "justetf", c1record "morningstar", c1record "investiny"]

/-- A priority covering all three sources. -/
def c1priority : List String := ["morningstar", "justetf", "investiny"]

/-- C1.  Merging records from three distinct sources is claimed to yield
`sourceBonus = min(3 * 10, 30) = 30` and a quality score of
`min(100, completeness * 70 + 30)`.  The code instead passes `len(sources)`
positionally into the keyword-only-after-`*values` parameter list of
`_calculate_quality_score`, so `num_sources` keeps its default `1`: the
bonus is always 10 and `len(sources)` is counted as a tenth non-null
checklist entry.  For three empty-data records from three sources the score
is `min(100, 1/9 * 70 + 10) = 160/9 ≈ 17.8`, not the claimed `30`. -/
theorem c1_quality_score_source_bonus_bug :
    (DataMerger.merge c1records c1priority).map (fun a => a.sources.length)
      = [3] ∧
    (DataMerger.merge c1records c1priority).map (fun a => a.data_quality_score)
      = [160 / 9] ∧
    (160 : Rat) / 9 ≠ 30 := by
  refine ⟨by rfl, ?_, by norm_num⟩
  have h : (DataMerger.merge c1records c1priority).map
      (fun a => a.data_quality_score)
      = [DataMerger.calculate_quality_score
          [.vNone, .vNone, .vNone, .vNone, .vNone, .vNone, .vNone, .vNone,
           .vInt 3] 1] := by rfl
  rw [h]
  simp +decide only [DataMerger.calculate_quality_score, List.filter]
  norm_num [min_def]

/-! ### C2: category filtering -/

/-- An instrument of the user universe with a Morningstar category. -/
def c2instrument : UniverseInstrument :=
  { isin := "IE00B4L5Y983",
    category_morningstar := some "Azionari Globali Large Cap Blend" }

/-- C2.  The category-comparison filter is claimed never to raise and to
degrade to the whole universe when no instrument matches.  In the code,
`_filter_universe_by_category` reads `inst.category`, an attribute that
`UniverseInstrument` does not define, so for every nonempty universe the
filtering stage raises `AttributeError` (and the callers do not catch it)
instead of filtering or degrading. -/
theorem c2_category_filter_raises_attribute_error :
    Engine.filter_universe_by_category [c2instrument]
      "Azionari Globali Large Cap Blend" "morningstar"
      = Except.error (Engine.PyExn.attributeError "category") := by
  rfl

/-! ### C3 and C4: merger field resolution -/

theorem best_value_singleton (x : Option Rat) :
    DataMerger.best_value [x] = x := by
  cases x <;> rfl

theorem first_non_null_singleton (x : Option String) (hx : x ≠ some "") :
    DataMerger.first_non_null [x] = x := by
  cases x with
  | none => rfl
  | some s =>
      have hs : s ≠ "" := by
        intro h
        exact hx (by rw [h])
      simp [DataMerger.first_non_null, hs]

theorem best_distribution_singleton (v : DistributionPolicy) :
    DataMerger.best_distribution [v] = v := by
  cases v <;> rfl

theorem best_instrument_type_singleton (v : InstrumentType) :
    DataMerger.best_instrument_type [v] = v := by
  cases v <;> rfl

/-- C3 (amended).  For every group of records and every priority list, each
merged scalar field is the first value of the priority-ordered scan: the six
mapped performance fields (ytd, 1y, 3y, 5y, 7y, 10y) and the three risk
fields resolve to the first non-null value, the category fields and the
domicile resolve to the first present non-empty string, and the remaining
four performance fields of the aggregate (1m, 3m, 6m, 9y) are never mapped
by the merger and are always null in its output. -/
theorem c3_first_non_null_field_resolution (isin : String)
    (records : List SourceRecord) (priority : List String)
    (agg : AggregatedInstrument)
    (h : DataMerger.merge_records isin records priority = some agg) :
    (agg.perf_ytd_eur =
        firstSome ((DataMerger.sortByPriority records priority).map
          (fun r => r.performance.ytd)) ∧
      agg.perf_1y_eur =
        firstSome ((DataMerger.sortByPriority records priority).map
          (fun r => r.performance.return_1y)) ∧
      agg.perf_3y_eur =
        firstSome ((DataMerger.sortByPriority records priority).map
          (fun r => r.performance.return_3y)) ∧
      agg.perf_5y_eur =
        firstSome ((DataMerger.sortByPriority records priority).map
          (fun r => r.performance.return_5y)) ∧
      agg.perf_7y_eur =
        firstSome ((DataMerger.sortByPriority records priority).map
          (fun r => r.performance.return_7y)) ∧
      agg.perf_10y_eur =
        firstSome ((DataMerger.sortByPriority records priority).map
          (fun r => r.performance.return_10y))) ∧
    (agg.volatility_1y =
        firstSome ((DataMerger.sortByPriority records priority).map
          (fun r => r.risk.volatility_1y)) ∧
      agg.volatility_3y =
        firstSome ((DataMerger.sortByPriority records priority).map
          (fun r => r.risk.volatility_3y)) ∧
      agg.sharpe_ratio_3y =
        firstSome ((DataMerger.sortByPriority records priority).map
          (fun r => r.risk.sharpe_ratio_3y))) ∧
    (agg.category_morningstar =
        firstTruthyStr ((DataMerger.sortByPriority records priority).map
          (fun r => r.category_morningstar)) ∧
      agg.category_assogestioni =
        firstTruthyStr ((DataMerger.sortByPriority records priority).map
          (fun r => r.category_assogestioni)) ∧
      agg.domicile =
        firstTruthyStr ((DataMerger.sortByPriority records priority).map
          (fun r => r.domicile))) ∧
    (agg.perf_1m_eur = none ∧ agg.perf_3m_eur = none ∧
      agg.perf_6m_eur = none ∧ agg.perf_9y_eur = none) := by
  unfold DataMerger.merge_records at h
  split at h
  · exact absurd h (by simp)
  · rw [Option.some_inj] at h
    subst h
    refine ⟨⟨?_, ?_, ?_, ?_, ?_, ?_⟩, ⟨?_, ?_, ?_⟩, ⟨?_, ?_, ?_⟩,
      ⟨rfl, rfl, rfl, rfl⟩⟩
    all_goals
      first
        | exact best_value_eq_firstSome _
        | exact first_non_null_eq_firstTruthy _

/-- The two records of the specification's priority-resolution example. -/
def c3records : List SourceRecord :=
  [{ isin := "IE00B4L5Y983", name := "JE", source := "justetf",
     performance := { return_1y := none, return_3y := some 10 } },
   { isin := "IE00B4L5Y983", name := "MS", source := "morningstar",
     performance := { return_1y := some 15, return_3y := none } }]

/-- The example's priority list. -/
def c3priority : List String := ["morningstar", "justetf"]

/-- The merge result of the example group. -/
def c3agg : AggregatedInstrument :=
  (DataMerger.merge_records "IE00B4L5Y983" c3records c3priority).getD default

/-- C3 witness: the field-resolution theorem applied to the example of the
claim; a higher-priority null does not suppress the lower-priority value. -/
theorem c3_first_non_null_field_resolution_witness :
    DataMerger.merge_records "IE00B4L5Y983" c3records c3priority = some c3agg ∧
    c3agg.perf_1y_eur = some 15 ∧ c3agg.perf_3y_eur = some 10 ∧
    c3agg.perf_1m_eur = none := by
  have h : DataMerger.merge_records "IE00B4L5Y983" c3records c3priority
      = some c3agg := by rfl
  have main := c3_first_non_null_field_resolution "IE00B4L5Y983" c3records
    c3priority c3agg h
  refine ⟨h, ?_, ?_, main.2.2.2.1⟩
  · rw [main.1.2.1]
    rfl
  · rw [main.1.2.2.1]
    rfl

/-- A group of two records both carrying a 1-month return. -/
def c3badrecords : List SourceRecord :=
  [{ isin := "IE00B4L5Y983", name := "JE", source := "justetf",
     performance := { return_1m := some 5 } },
   { isin := "IE00B4L5Y983", name := "MS", source := "morningstar",
     performance := { return_1m := some 6 } }]

/-- C3 counterexample.  The claim covers all ten performance fields, but the
merger never maps the 1-month field: the merged `perf_1m_eur` is null even
though the priority-ordered scan has a non-null first value. -/
theorem c3_one_month_field_not_merged :
    (DataMerger.merge c3badrecords c3priority).map (fun a => a.perf_1m_eur)
      = [none] ∧
    firstSome ((DataMerger.sortByPriority c3badrecords c3priority).map
      (fun r => r.performance.return_1m)) = some 6 :=
  ⟨rfl, rfl⟩

/-- The single record of the C4 counterexample, carrying a 1-month and a
9-year return. -/
def c4record : SourceRecord :=
  { isin := "IE00B4L5Y983", name := "F", source := "justetf",
    performance := { return_1m := some 2, return_9y := some 7 } }

/-- C4 counterexample.  Merging a single record does not preserve every
field: the 1-month (and 3-month, 6-month, 9-year) returns present on the
record are dropped, because `_merge_records` never maps them into the
aggregate. -/
theorem c4_single_record_drops_short_horizon_fields :
    c4record.performance.return_1m = some 2 ∧
    c4record.performance.return_9y = some 7 ∧
    (DataMerger.merge [c4record] ["justetf"]).map (fun a => a.perf_1m_eur)
      = [none] ∧
    (DataMerger.merge [c4record] ["justetf"]).map (fun a => a.perf_9y_eur)
      = [none] :=
  ⟨rfl, rfl, rfl, rfl⟩

/-- C4 (amended).  Merging a single valid record yields exactly one
aggregate that copies every mapped field of the record verbatim (name,
currency, type, distribution, categories and domicile when not
present-but-empty, the six mapped performance fields, the three risk
fields, the singleton source list); the unmapped 1m, 3m, 6m and 9y
performance fields of the aggregate are null even when present on the
record. -/
theorem c4_single_record_roundtrip (r : SourceRecord) (priority : List String)
    (hval : DataMerger.merger_validate_isin (DataMerger.normalizeIsin r.isin)
      = true)
    (hnorm : DataMerger.normalizeIsin r.isin = r.isin)
    (hdom : r.domicile ≠ some "")
    (hcm : r.category_morningstar ≠ some "")
    (hca : r.category_assogestioni ≠ some "") :
    (DataMerger.merge [r] priority).length = 1 ∧
    ∀ a ∈ DataMerger.merge [r] priority,
      a.isin = r.isin ∧ a.name = r.name ∧
      a.instrument_type = r.instrument_type ∧ a.currency = r.currency ∧
      a.domicile = r.domicile ∧ a.distribution = r.distribution ∧
      a.category_morningstar = r.category_morningstar ∧
      a.category_assogestioni = r.category_assogestioni ∧
      a.perf_ytd_eur = r.performance.ytd ∧
      a.perf_1y_eur = r.performance.return_1y ∧
      a.perf_3y_eur = r.performance.return_3y ∧
      a.perf_5y_eur = r.performance.return_5y ∧
      a.perf_7y_eur = r.performance.return_7y ∧
      a.perf_10y_eur = r.performance.return_10y ∧
      a.volatility_1y = r.risk.volatility_1y ∧
      a.volatility_3y = r.risk.volatility_3y ∧
      a.sharpe_ratio_3y = r.risk.sharpe_ratio_3y ∧
      a.sources = [r.source] ∧
      a.perf_1m_eur = none ∧ a.perf_3m_eur = none ∧
      a.perf_6m_eur = none ∧ a.perf_9y_eur = none := by
  have hgroup : DataMerger.groupValid [r]
      = [(DataMerger.normalizeIsin r.isin, [r])] := by
    simp [DataMerger.groupValid, DataMerger.insertGroup, hval]
  have hsort : DataMerger.sortByPriority [r] priority = [r] := rfl
  constructor
  · rw [DataMerger.merge, if_neg (by simp), hgroup]
    simp [List.filterMap, DataMerger.merge_records, hsort]
  intro a ha
  rw [DataMerger.merge, if_neg (by simp), hgroup] at ha
  simp only [List.filterMap, DataMerger.merge_records, hsort] at ha
  rw [List.mem_singleton] at ha
  subst ha
  refine ⟨hnorm, rfl, best_instrument_type_singleton _, rfl,
    first_non_null_singleton _ hdom, best_distribution_singleton _,
    first_non_null_singleton _ hcm, first_non_null_singleton _ hca,
    best_value_singleton _, best_value_singleton _, best_value_singleton _,
    best_value_singleton _, best_value_singleton _, best_value_singleton _,
    best_value_singleton _, best_value_singleton _, best_value_singleton _,
    rfl, rfl, rfl, rfl, rfl⟩

/-- The aggregate produced by merging the single C4 record. -/
def c4agg : AggregatedInstrument :=
  (DataMerger.merge [c4record] ["justetf"]).headD default

/-- C4 witness: the amended single-record theorem at a concrete record. -/
theorem c4_single_record_roundtrip_witness :
    (DataMerger.merge [c4record] ["justetf"]).length = 1 ∧
    c4agg.name = c4record.name ∧ c4agg.perf_1y_eur
      = c4record.performance.return_1y ∧ c4agg.perf_1m_eur = none := by
  have hm : c4agg ∈ DataMerger.merge [c4record] ["justetf"] := by
    rw [show DataMerger.merge [c4record] ["justetf"] = [c4agg] from rfl]
    exact List.mem_singleton.mpr rfl
  have main := c4_single_record_roundtrip c4record ["justetf"]
    (by rfl) (by rfl) (by simp [c4record]) (by simp [c4record])
    (by simp [c4record])
  have fields := main.2 c4agg hm
  exact ⟨main.1, fields.2.1, fields.2.2.2.2.2.2.2.2.2.1,
    fields.2.2.2.2.2.2.2.2.2.2.2.2.2.2.2.2.2.2.1⟩

/-! ### C5: delta computation and null policy -/

/-- C5.  The calculator excludes candidates carrying the benchmark's
identifier; a delta exists exactly when both operands are present, in which
case it is the 4-digit rounded difference with outcome `delta > 0`; a
missing operand yields a null delta (never zero) with an indeterminate
outcome. -/
theorem c5_delta_null_policy (univ : List UniverseInstrument)
    (etf : UniverseInstrument) (period : String) (label : String) :
    ∀ r ∈ (Calc.compare_universe_vs_etf univ etf period label).results,
      r.instrument.isin ≠ etf.isin ∧
      (r.delta = none ↔
        (etf.get_performance_by_period period = none ∨
         r.instrument.get_performance_by_period period = none)) ∧
      (∀ e f, etf.get_performance_by_period period = some e →
        r.instrument.get_performance_by_period period = some f →
        r.delta = some (pyRound (f - e) 4) ∧
        r.beats_etf = some (decide (0 < pyRound (f - e) 4))) := by
  intro r hr
  unfold Calc.compare_universe_vs_etf at hr
  simp only [List.mem_map, List.mem_filter] at hr
  obtain ⟨fund, ⟨hmem, hne⟩, hrdef⟩ := hr
  have hne' : fund.isin ≠ etf.isin := by
    simpa using hne
  rcases he : etf.get_performance_by_period period with _ | e <;>
    rcases hf : fund.get_performance_by_period period with _ | f <;>
    rw [he, hf] at hrdef <;> subst hrdef <;> refine ⟨hne', ?_, ?_⟩
  · simp
  · intro e f h1 h2
    exact Option.noConfusion h1
  · simp
  · intro e f h1 h2
    exact Option.noConfusion h1
  · simp [hf]
  · intro e' f' h1 h2
    have h2' : fund.get_performance_by_period period = some f' := h2
    rw [hf] at h2'
    exact Option.noConfusion h2'
  · simp [hf]
  · intro e' f' h1 h2
    have h1' : e = e' := Option.some_inj.mp h1
    have h2' : fund.get_performance_by_period period = some f' := h2
    rw [hf, Option.some_inj] at h2'
    subst h1'
    subst h2'
    exact ⟨rfl, rfl⟩

/-- First instrument of the end-to-end example: 3-year return 12. -/
def c5U1 : UniverseInstrument := { isin := "LU0000000011", perf_3y := some 12 }

/-- Second instrument of the end-to-end example: 3-year return 8. -/
def c5U2 : UniverseInstrument := { isin := "LU0000000029", perf_3y := some 8 }

/-- Third instrument of the end-to-end example: no 3-year return. -/
def c5U3 : UniverseInstrument := { isin := "LU0000000037" }

/-- Benchmark of the end-to-end example: 3-year return 10. -/
def c5Benchmark : UniverseInstrument :=
  { isin := "IE00B4L5Y983", perf_3y := some 10 }

/-- The report of the end-to-end example. -/
def c5Report : Calc.ComparisonReport :=
  Calc.compare_universe_vs_etf [c5U1, c5U2, c5U3] c5Benchmark "3y" "3 anni"

/-- C5 witness: the general theorem applied to the first result of the
end-to-end scenario, plus the scenario's aggregate numbers: deltas
`[+2, -2, null]`, one outperformer, one underperformer, one indeterminate,
average delta 0. -/
theorem c5_delta_null_policy_witness :
    c5Report.results.map (fun r => r.delta) = [some 2, some (-2), none] ∧
    c5Report.funds_beating_etf = 1 ∧
    c5Report.funds_not_beating_etf = 1 ∧
    c5Report.funds_no_data = 1 ∧
    c5Report.avg_delta = some 0 := by
  have hr1 : pyRound ((12 : Rat) - 10) 4 = 2 := by
    have h : ((12 : Rat) - 10) = ((2 : Int) : Rat) := by norm_num
    rw [h, pyRound_intCast]
    norm_num
  have hr2 : pyRound ((8 : Rat) - 10) 4 = -2 := by
    have h : ((8 : Rat) - 10) = ((-2 : Int) : Rat) := by norm_num
    rw [h, pyRound_intCast]
    norm_num
  have hfirst : ∀ r ∈ c5Report.results,
      r.instrument.isin ≠ c5Benchmark.isin :=
    fun r hr =>
      (c5_delta_null_policy [c5U1, c5U2, c5U3] c5Benchmark "3y" "3 anni"
        r hr).1
  have hresults : c5Report.results =
      [{ instrument := c5U1, etf_performance := some 10,
         fund_performance := some 12,
         delta := some (pyRound ((12 : Rat) - 10) 4),
         beats_etf := some (decide (0 < pyRound ((12 : Rat) - 10) 4)) },
       { instrument := c5U2, etf_performance := some 10,
         fund_performance := some 8,
         delta := some (pyRound ((8 : Rat) - 10) 4),
         beats_etf := some (decide (0 < pyRound ((8 : Rat) - 10) 4)) },
       { instrument := c5U3, etf_performance := some 10,
         fund_performance := none, delta := none, beats_etf := none }] := by
    rfl
  have hres2 : c5Report.results =
      [{ instrument := c5U1, etf_performance := some 10,
         fund_performance := some 12, delta := some 2,
         beats_etf := some true },
       { instrument := c5U2, etf_performance := some 10,
         fund_performance := some 8, delta := some (-2),
         beats_etf := some false },
       { instrument := c5U3, etf_performance := some 10,
         fund_performance := none, delta := none, beats_etf := none }] := by
    rw [hresults, hr1, hr2]
    norm_num
  refine ⟨by rw [hres2]; rfl, ?_, ?_, ?_, ?_⟩
  · rw [Calc.ComparisonReport.funds_beating_etf, hres2]
    rfl
  · rw [Calc.ComparisonReport.funds_not_beating_etf, hres2]
    rfl
  · rw [Calc.ComparisonReport.funds_no_data, hres2]
    rfl
  · have hdeltas : c5Report.results.filterMap (fun r => r.delta)
        = [pyRound ((12 : Rat) - 10) 4, pyRound ((8 : Rat) - 10) 4] := rfl
    rw [Calc.ComparisonReport.avg_delta, hdeltas, hr1, hr2]
    rw [if_neg (by simp)]
    norm_num [List.sum_cons, List.sum_nil, List.length_cons, List.length_nil]

/-! ### C7: benchmark resolution tiers -/

theorem cacheGet_replace (c : Benchmark.EtfCache) (k : String)
    (v : Benchmark.CacheEntry) :
    Benchmark.cacheGet (c.map (fun e => if e.1 = k then (k, v) else e)) k
      = if (c.find? (fun e => e.1 = k)).isSome then some v
        else Benchmark.cacheGet c k := by
  induction c with
  | nil => simp [Benchmark.cacheGet]
  | cons e t ih =>
      by_cases he : e.1 = k
      · simp [Benchmark.cacheGet, he]
      · simp [Benchmark.cacheGet, he, ih]
        rw [List.find?_cons_of_neg _ (by simpa using he)]

theorem cacheGet_append_of_not_found (c : Benchmark.EtfCache) (k : String)
    (v : Benchmark.CacheEntry) (h : c.find? (fun e => e.1 = k) = none) :
    Benchmark.cacheGet (c ++ [(k, v)]) k = some v := by
  induction c with
  | nil => simp [Benchmark.cacheGet]
  | cons e t ih =>
      rw [List.find?_cons] at h
      by_cases he : e.1 = k
      · simp [he] at h
      · simp only [he, decide_False] at h
        simp only [List.cons_append, Benchmark.cacheGet, if_neg he]
        exact ih (by simpa [he] using h)

theorem cacheGet_cacheSet (c : Benchmark.EtfCache) (k : String)
    (v : Benchmark.CacheEntry) :
    Benchmark.cacheGet (Benchmark.cacheSet c k v) k = some v := by
  unfold Benchmark.cacheSet
  by_cases h : (List.find? (fun e => e.1 = k) c).isSome
  · rw [if_pos h, cacheGet_replace, if_pos h]
  · rw [if_neg h]
    exact cacheGet_append_of_not_found c k v
      (Option.not_isSome_iff_eq_none.mp h)

/-- C7.  The benchmark resolver returns null immediately for an invalid
identifier, with the cache untouched and the result independent of every
tier; otherwise it consults the loaded universe, then the cache, then the
external sources in priority order (JustETF before Morningstar),
short-circuiting on the first hit; an external result is accepted only when
it carries a 1-year, 3-year or 5-year return, otherwise the next source is
tried; and an accepted external result is written into the returned cache
under the upper-cased identifier. -/
theorem c7_benchmark_resolution_tiers (isin : String)
    (univ : List UniverseInstrument) (cache : Benchmark.EtfCache) (now : Nat)
    (jout mout : Benchmark.ScrapeOutcome) :
    (loader_validate_isin isin = false →
      Benchmark.get_etf_benchmark isin univ cache now jout mout true
        = (none, cache)) ∧
    (∀ etf, loader_validate_isin isin = true →
      Benchmark.find_etf_in_universe (pyUpper (pyStrip isin)) univ = some etf →
      Benchmark.get_etf_benchmark isin univ cache now jout mout true
        = (some etf, cache)) ∧
    (∀ etf cache2, loader_validate_isin isin = true →
      Benchmark.find_etf_in_universe (pyUpper (pyStrip isin)) univ = none →
      Benchmark.find_etf_in_cache cache now (pyUpper (pyStrip isin))
        = (some etf, cache2) →
      Benchmark.get_etf_benchmark isin univ cache now jout mout true
        = (some etf, cache2)) ∧
    (∀ r cache2, loader_validate_isin isin = true →
      Benchmark.find_etf_in_universe (pyUpper (pyStrip isin)) univ = none →
      Benchmark.find_etf_in_cache cache now (pyUpper (pyStrip isin))
        = (none, cache2) →
      jout = Benchmark.ScrapeOutcome.ok (some r) →
      Benchmark.has_useful_performance (some r) = true →
      Benchmark.get_etf_benchmark isin univ cache now jout mout true
        = (some (Benchmark.externalToInstrument (pyUpper (pyStrip isin))
              (Benchmark.toExternalData r)),
           Benchmark.add_etf_to_cache cache2 now (pyUpper (pyStrip isin))
             (Benchmark.externalToInstrument (pyUpper (pyStrip isin))
               (Benchmark.toExternalData r)))) ∧
    (∀ r cache2, loader_validate_isin isin = true →
      Benchmark.find_etf_in_universe (pyUpper (pyStrip isin)) univ = none →
      Benchmark.find_etf_in_cache cache now (pyUpper (pyStrip isin))
        = (none, cache2) →
      Benchmark.has_useful_performance
        (match jout with
         | Benchmark.ScrapeOutcome.ok x => x
         | Benchmark.ScrapeOutcome.exn => none) = false →
      mout = Benchmark.ScrapeOutcome.ok (some r) →
      Benchmark.has_useful_performance (some r) = true →
      Benchmark.get_etf_benchmark isin univ cache now jout mout true
        = (some (Benchmark.externalToInstrument (pyUpper (pyStrip isin))
              (Benchmark.toExternalData r)),
           Benchmark.add_etf_to_cache cache2 now (pyUpper (pyStrip isin))
             (Benchmark.externalToInstrument (pyUpper (pyStrip isin))
               (Benchmark.toExternalData r)))) ∧
    (∀ rec : SourceRecord,
      Benchmark.has_useful_performance (some rec) = true ↔
        (rec.performance.return_1y ≠ none ∨ rec.performance.return_3y ≠ none ∨
         rec.performance.return_5y ≠ none)) ∧
    (∀ (c : Benchmark.EtfCache) (k : String) (v : Benchmark.CacheEntry),
      Benchmark.cacheGet (Benchmark.cacheSet c k v) k = some v) := by
  refine ⟨?_, ?_, ?_, ?_, ?_, ?_, cacheGet_cacheSet⟩
  · intro h
    unfold Benchmark.get_etf_benchmark
    rw [if_pos (by simp [h])]
  · intro etf hv hu
    unfold Benchmark.get_etf_benchmark
    rw [if_neg (by simp [hv])]
    simp only [hu]
  · intro etf cache2 hv hu hc
    unfold Benchmark.get_etf_benchmark
    rw [if_neg (by simp [hv])]
    simp only [hu, if_true, hc]
  · intro r cache2 hv hu hc hj hr
    unfold Benchmark.get_etf_benchmark
    rw [if_neg (by simp [hv])]
    subst hj
    unfold Benchmark.get_etf_from_external_sources
    simp only [hu, if_true, hc, hr]
  · intro r cache2 hv hu hc hjf hm hr
    unfold Benchmark.get_etf_benchmark
    rw [if_neg (by simp [hv])]
    subst hm
    unfold Benchmark.get_etf_from_external_sources
    cases jout with
    | exn => simp only [hu, if_true, hc, hr]
    | ok x =>
        cases x with
        | none => simp only [hu, if_true, hc, hr]
        | some r0 =>
            have hjf' : Benchmark.has_useful_performance (some r0) = false := hjf
            simp only [hu, if_true, hc, hr, hjf']
            simp
  · intro rec
    unfold Benchmark.has_useful_performance
    simp [Option.isSome_iff_ne_none, or_assoc]

/-- The external record returned by the JustETF oracle in the C7 scenario. -/
def c7record : SourceRecord :=
  { isin := "IE00B4L5Y983", name := "iShares Core MSCI World",
    source := "justetf", category_morningstar := some "Azionari Globali",
    performance := { return_3y := some 20 } }

/-- The instrument the resolver builds from the accepted external record. -/
def c7instr : UniverseInstrument :=
  Benchmark.externalToInstrument "IE00B4L5Y983"
    (Benchmark.toExternalData c7record)

/-- C7 witness: the tier theorem applied to a lowercase identifier with an
empty universe and cache and a JustETF hit carrying a 3-year return; the
result is the converted instrument and the returned cache contains it. -/
theorem c7_benchmark_resolution_tiers_witness :
    Benchmark.get_etf_benchmark "ie00b4l5y983" [] [] 1000
      (Benchmark.ScrapeOutcome.ok (some c7record))
      Benchmark.ScrapeOutcome.exn true
      = (some c7instr, [("IE00B4L5Y983", ⟨c7instr, 1000⟩)]) ∧
    Benchmark.cacheGet
      (Benchmark.get_etf_benchmark "ie00b4l5y983" [] [] 1000
        (Benchmark.ScrapeOutcome.ok (some c7record))
        Benchmark.ScrapeOutcome.exn true).2 "IE00B4L5Y983"
      = some ⟨c7instr, 1000⟩ := by
  have main := c7_benchmark_resolution_tiers "ie00b4l5y983" [] [] 1000
    (Benchmark.ScrapeOutcome.ok (some c7record)) Benchmark.ScrapeOutcome.exn
  have hd := main.2.2.2.1 c7record [] (by rfl) (by rfl) (by rfl) (by rfl)
    (by rfl)
  constructor
  · rw [hd]
    rfl
  · rw [hd]
    rfl

/-! ### C9: presentation sorting contract -/

instance sortRelIsTotal (asc : Bool) :
    IsTotal Calc.ComparisonResult (Calc.sortRel asc) := by
  constructor
  intro a b
  unfold Calc.sortRel
  cases asc <;> simp <;> exact le_total _ _

instance sortRelIsTrans (asc : Bool) :
    IsTrans Calc.ComparisonResult (Calc.sortRel asc) := by
  constructor
  intro a b c
  unfold Calc.sortRel
  cases asc <;> simp <;> intro h1 h2
  · exact le_trans h2 h1
  · exact le_trans h1 h2

/-- C9.  `get_sorted_results` puts the null-delta results after all non-null
results, in their original relative order, regardless of direction; the
non-null segment is a permutation of the non-null results ordered by delta
(ascending or descending as requested) with ties kept in input order (any
correctly-ordered subsequence of the input survives into the output); and
sorting an already-sorted result list again returns the same order. -/
theorem c9_sorting_contract (rep : Calc.ComparisonReport) (asc : Bool) :
    ((rep.get_sorted_results asc).drop
        (rep.results.filter (fun r => r.delta.isSome)).length
      = rep.results.filter (fun r => r.delta.isNone)) ∧
    ((rep.get_sorted_results asc).take
        (rep.results.filter (fun r => r.delta.isSome)).length).Perm
      (rep.results.filter (fun r => r.delta.isSome)) ∧
    ((rep.get_sorted_results asc).take
        (rep.results.filter (fun r => r.delta.isSome)).length).Pairwise
      (fun a b => if asc = true then a.delta.getD 0 ≤ b.delta.getD 0
        else b.delta.getD 0 ≤ a.delta.getD 0) ∧
    (∀ c : List Calc.ComparisonResult,
      c.Pairwise (Calc.sortRel asc) →
      c.Sublist (rep.results.filter (fun r => r.delta.isSome)) →
      c.Sublist ((rep.get_sorted_results asc).take
        (rep.results.filter (fun r => r.delta.isSome)).length)) ∧
    (Calc.ComparisonReport.get_sorted_results
        { rep with results := rep.get_sorted_results asc } asc
      = rep.get_sorted_results asc) := by
  have hA : rep.get_sorted_results asc
      = List.insertionSort (Calc.sortRel asc)
          (rep.results.filter (fun r => r.delta.isSome))
        ++ rep.results.filter (fun r => r.delta.isNone) := rfl
  have hlen : (List.insertionSort (Calc.sortRel asc)
      (rep.results.filter (fun r => r.delta.isSome))).length
      = (rep.results.filter (fun r => r.delta.isSome)).length :=
    (List.perm_insertionSort _ _).length_eq
  have htake : (rep.get_sorted_results asc).take
      (rep.results.filter (fun r => r.delta.isSome)).length
      = List.insertionSort (Calc.sortRel asc)
          (rep.results.filter (fun r => r.delta.isSome)) := by
    rw [hA]
    exact List.take_left' hlen
  have hdrop : (rep.get_sorted_results asc).drop
      (rep.results.filter (fun r => r.delta.isSome)).length
      = rep.results.filter (fun r => r.delta.isNone) := by
    rw [hA]
    exact List.drop_left' hlen
  have hsomeA : ∀ a ∈ List.insertionSort (Calc.sortRel asc)
      (rep.results.filter (fun r => r.delta.isSome)), a.delta.isSome = true := by
    intro a ha
    have := (List.perm_insertionSort (Calc.sortRel asc) _).mem_iff.mp ha
    exact (List.mem_filter.mp this).2
  have hnoneB : ∀ a ∈ rep.results.filter (fun r => r.delta.isNone),
      a.delta.isNone = true := by
    intro a ha
    exact (List.mem_filter.mp ha).2
  refine ⟨hdrop, ?_, ?_, ?_, ?_⟩
  · rw [htake]
    exact List.perm_insertionSort _ _
  · rw [htake]
    exact List.sorted_insertionSort (Calc.sortRel asc) _
  · intro c hc hsub
    rw [htake]
    exact List.sublist_insertionSort hc hsub
  · show List.insertionSort (Calc.sortRel asc)
        ((rep.get_sorted_results asc).filter (fun r => r.delta.isSome))
      ++ (rep.get_sorted_results asc).filter (fun r => r.delta.isNone)
      = rep.get_sorted_results asc
    have hAself : (List.insertionSort (Calc.sortRel asc)
        (rep.results.filter (fun r => r.delta.isSome))).filter
          (fun r => r.delta.isSome)
        = List.insertionSort (Calc.sortRel asc)
            (rep.results.filter (fun r => r.delta.isSome)) :=
      List.filter_eq_self.mpr hsomeA
    have hBnil : (rep.results.filter (fun r => r.delta.isNone)).filter
        (fun r => r.delta.isSome) = [] := by
      apply List.filter_eq_nil_iff.mpr
      intro a ha hsome
      have hnone := hnoneB a ha
      rw [Option.isNone_iff_eq_none] at hnone
      rw [hnone] at hsome
      cases hsome
    have hAnil : (List.insertionSort (Calc.sortRel asc)
        (rep.results.filter (fun r => r.delta.isSome))).filter
          (fun r => r.delta.isNone) = [] := by
      apply List.filter_eq_nil_iff.mpr
      intro a ha hnone
      have hsome := hsomeA a ha
      rw [Option.isNone_iff_eq_none] at hnone
      rw [hnone] at hsome
      cases hsome
    have hBself : (rep.results.filter (fun r => r.delta.isNone)).filter
        (fun r => r.delta.isNone) = rep.results.filter (fun r => r.delta.isNone) :=
      List.filter_eq_self.mpr hnoneB
    have h1 : (rep.get_sorted_results asc).filter (fun r => r.delta.isSome)
        = List.insertionSort (Calc.sortRel asc)
            (rep.results.filter (fun r => r.delta.isSome)) := by
      rw [hA, List.filter_append, hAself, hBnil, List.append_nil]
    have h2 : (rep.get_sorted_results asc).filter (fun r => r.delta.isNone)
        = rep.results.filter (fun r => r.delta.isNone) := by
      rw [hA, List.filter_append, hAnil, hBself, List.nil_append]
    rw [h1, h2,
      List.Sorted.insertionSort_eq (List.sorted_insertionSort _ _), hA]

/-- Two tied results (delta 2) and one null-delta result for the sorting
scenario. -/
def c9rA : Calc.ComparisonResult :=
  { instrument := { isin := "LU0000000052" }, etf_performance := some 10,
    fund_performance := some 12, delta := some 2, beats_etf := some true }

/-- The second tied result. -/
def c9rB : Calc.ComparisonResult :=
  { instrument := { isin := "LU0000000060" }, etf_performance := some 10,
    fund_performance := some 12, delta := some 2, beats_etf := some true }

/-- A result with a null delta. -/
def c9rNone : Calc.ComparisonResult :=
  { instrument := { isin := "LU0000000078" }, etf_performance := some 10,
    fund_performance := none, delta := none, beats_etf := none }

/-- The report of the sorting scenario: a null-delta result sits between two
tied non-null results. -/
def c9rep : Calc.ComparisonReport :=
  { etf_benchmark := { isin := "IE00B4L5Y983" }, period := "3y",
    period_label := "3 anni", results := [c9rA, c9rNone, c9rB] }

/-- C9 witness: the sorting contract applied to the concrete scenario; the
tied pair in input order survives into the sorted segment, and the output
puts the null-delta result last. -/
theorem c9_sorting_contract_witness :
    c9rep.get_sorted_results true = [c9rA, c9rB, c9rNone] ∧
    List.Sublist [c9rA, c9rB]
      ((c9rep.get_sorted_results true).take
        ((c9rep.results.filter (fun r => r.delta.isSome)).length) ) := by
  have main := c9_sorting_contract c9rep true
  have hone : Calc.sortRel true c9rA c9rB := le_refl ((2 : Rat))
  have hpair : ([c9rA, c9rB] : List Calc.ComparisonResult).Pairwise
      (Calc.sortRel true) :=
    List.Pairwise.cons
      (fun b hb => by
        rw [List.mem_singleton] at hb
        rw [hb]
        exact hone)
      (List.pairwise_singleton _ _)
  have hsub : List.Sublist [c9rA, c9rB]
      (c9rep.results.filter (fun r => r.delta.isSome)) := by
    rw [show c9rep.results.filter (fun r => r.delta.isSome) = [c9rA, c9rB]
      from rfl]
  exact ⟨by rfl, main.2.2.2.1 [c9rA, c9rB] hpair hsub⟩

/-! ### C10: aggregate outperformer thresholds -/

/-- C10.  The aggregate statistics count, over universe-origin results only,
an outperformer exactly when the reference-horizon delta exceeds `0.5` and
an underperformer exactly when it is at most `-0.5` (so a delta in
`(-0.5, 0.5]` is counted as neither), while the per-result outcome of the
comparison calculator classifies any strictly positive delta as beating the
benchmark. -/
theorem c10_statistics_use_half_point_thresholds
    (results : List Models.ComparisonResult) (rp : String) :
    (Models.calculate_statistics results rp).outperformers_count
      = (results.filter (fun r => decide (r.origin = "universe") &&
          (match r.get_delta_by_period rp with
           | some d => decide ((1 : Rat)/2 < d)
           | none => false))).length ∧
    (Models.calculate_statistics results rp).underperformers_count
      = (results.filter (fun r => decide (r.origin = "universe") &&
          (match r.get_delta_by_period rp with
           | some d => decide (d ≤ -((1 : Rat)/2))
           | none => false))).length ∧
    (∀ (univ : List UniverseInstrument) (etf : UniverseInstrument)
      (period label : String) (r : Calc.ComparisonResult),
      r ∈ (Calc.compare_universe_vs_etf univ etf period label).results →
      r.beats_etf = r.delta.map (fun d => decide (0 < d))) := by
  have hout : ∀ r : Models.ComparisonResult,
      (decide (r.is_outperformer rp (1/2) = some true) &&
        decide (r.origin = "universe"))
      = (decide (r.origin = "universe") &&
          (match r.get_delta_by_period rp with
           | some d => decide ((1 : Rat)/2 < d)
           | none => false)) := by
    intro r
    cases hd : r.get_delta_by_period rp with
    | none => simp [Models.ComparisonResult.is_outperformer, hd]
    | some d =>
        simp [Models.ComparisonResult.is_outperformer, hd, Bool.and_comm]
  have hunder : ∀ r : Models.ComparisonResult,
      (decide (r.is_outperformer rp (-(1/2)) = some false) &&
        decide (r.origin = "universe"))
      = (decide (r.origin = "universe") &&
          (match r.get_delta_by_period rp with
           | some d => decide (d ≤ -((1 : Rat)/2))
           | none => false)) := by
    intro r
    cases hd : r.get_delta_by_period rp with
    | none => simp [Models.ComparisonResult.is_outperformer, hd]
    | some d =>
        simp [Models.ComparisonResult.is_outperformer, hd, not_lt,
          Bool.and_comm]
  refine ⟨?_, ?_, ?_⟩
  · unfold Models.calculate_statistics
    by_cases hres : results = []
    · subst hres
      rfl
    · rw [if_neg hres]
      show ((results.filter _).filter _).length = _
      rw [List.filter_filter]
      exact congrArg List.length (List.filter_congr (fun r _ => hout r))
  · unfold Models.calculate_statistics
    by_cases hres : results = []
    · subst hres
      rfl
    · rw [if_neg hres]
      show ((results.filter _).filter _).length = _
      rw [List.filter_filter]
      exact congrArg List.length (List.filter_congr (fun r _ => hunder r))
  · intro univ etf period label r hr
    unfold Calc.compare_universe_vs_etf at hr
    simp only [List.mem_map, List.mem_filter] at hr
    obtain ⟨fund, ⟨hmem, hne⟩, hrdef⟩ := hr
    rcases he : etf.get_performance_by_period period with _ | e <;>
      rcases hf : fund.get_performance_by_period period with _ | f <;>
      rw [he, hf] at hrdef <;> subst hrdef <;> rfl

/-- A universe-origin result whose 3-year delta lies strictly between the
per-result outcome threshold (0) and the aggregate outperformer threshold
(0.5). -/
def c10result : Models.ComparisonResult :=
  { instrument := { isin := "IE00B4L5Y983", name := "X" },
    origin := "universe", delta_3y := some (3/10) }

/-- A one-fund universe whose 3-year return beats the benchmark by 0.3. -/
def c10univ : List UniverseInstrument :=
  [{ isin := "LU0000000045", perf_3y := some (103/10) }]

/-- The benchmark for the C10 scenario. -/
def c10etf : UniverseInstrument :=
  { isin := "IE00B4L5Y983", perf_3y := some 10 }

/-- The single calculator result of the C10 scenario. -/
def c10calcResult : Calc.ComparisonResult :=
  (Calc.compare_universe_vs_etf c10univ c10etf "3y" "3 anni").results.headD
    { instrument := c10etf, etf_performance := none, fund_performance := none,
      delta := none, beats_etf := none }

/-- C10 witness: at a delta of `0.3`, the statistics count neither an
outperformer nor an underperformer, while the calculator's per-result
outcome for the corresponding scenario is determined by `delta > 0`. -/
theorem c10_statistics_use_half_point_thresholds_witness :
    (Models.calculate_statistics [c10result] "3y").outperformers_count = 0 ∧
    (Models.calculate_statistics [c10result] "3y").underperformers_count = 0 ∧
    c10result.delta_3y = some (3/10) ∧
    c10calcResult.beats_etf
      = c10calcResult.delta.map (fun d => decide (0 < d)) := by
  have main := c10_statistics_use_half_point_thresholds [c10result] "3y"
  have hm : c10calcResult
      ∈ (Calc.compare_universe_vs_etf c10univ c10etf "3y" "3 anni").results := by
    rw [show (Calc.compare_universe_vs_etf c10univ c10etf "3y"
      "3 anni").results = [c10calcResult] from rfl]
    exact List.mem_singleton.mpr rfl
  have hd : c10result.get_delta_by_period "3y" = some (3/10) := rfl
  refine ⟨?_, ?_, rfl, main.2.2 c10univ c10etf "3y" "3 anni" c10calcResult hm⟩
  · rw [main.1]
    have hlt : decide ((1 : Rat)/2 < 3/10) = false :=
      decide_eq_false (by norm_num)
    simp [List.filter_cons, hd, hlt]
    exact fun _ => by norm_num
  · rw [main.2.1]
    have hle : decide ((3 : Rat)/10 ≤ -((1 : Rat)/2)) = false :=
      decide_eq_false (by norm_num)
    simp [List.filter_cons, hd, hle]
    exact fun _ => by norm_num

/-! ### C8: merge batch guarantees -/

theorem insertGroup_keys (gs : List (String × List SourceRecord)) (k : String)
    (r : SourceRecord) :
    (DataMerger.insertGroup gs k r).map Prod.fst =
      if k ∈ gs.map Prod.fst then gs.map Prod.fst
      else gs.map Prod.fst ++ [k] := by
  induction gs with
  | nil => simp [DataMerger.insertGroup]
  | cons g t ih =>
      obtain ⟨k0, rs⟩ := g
      by_cases hk : k0 = k
      · subst hk
        simp [DataMerger.insertGroup]
      · have hk' : k ≠ k0 := fun h => hk h.symm
        simp only [DataMerger.insertGroup, if_neg hk, List.map_cons, ih,
          List.mem_cons]
        by_cases h : k ∈ t.map Prod.fst
        · simp [h, hk']
        · simp [h, hk']

theorem insertGroup_vals_ne_nil (gs : List (String × List SourceRecord))
    (k : String) (r : SourceRecord) (h : ∀ g ∈ gs, g.2 ≠ []) :
    ∀ g ∈ DataMerger.insertGroup gs k r, g.2 ≠ [] := by
  induction gs with
  | nil =>
      intro g hg
      simp only [DataMerger.insertGroup] at hg
      rw [List.mem_singleton] at hg
      subst hg
      simp
  | cons g0 t ih =>
      obtain ⟨k0, rs⟩ := g0
      intro g hg
      simp only [DataMerger.insertGroup] at hg
      by_cases hk : k0 = k
      · rw [if_pos hk, List.mem_cons] at hg
        rcases hg with hg | hg
        · subst hg
          simp
        · exact h g (List.mem_cons_of_mem _ hg)
      · rw [if_neg hk, List.mem_cons] at hg
        rcases hg with hg | hg
        · subst hg
          exact h (k0, rs) (List.mem_cons_self _ _)
        · exact ih (fun g' hg' => h g' (List.mem_cons_of_mem _ hg')) g hg

theorem groupValid_keys_aux (records : List SourceRecord) :
    ∀ acc : List (String × List SourceRecord),
      ((records.foldl
        (fun gs r =>
          let n := DataMerger.normalizeIsin r.isin
          if DataMerger.merger_validate_isin n then
            DataMerger.insertGroup gs n r
          else gs)
        acc).map Prod.fst)
      = records.foldl
          (fun ks r =>
            let n := DataMerger.normalizeIsin r.isin
            if DataMerger.merger_validate_isin n then
              (if n ∈ ks then ks else ks ++ [n])
            else ks)
          (acc.map Prod.fst) := by
  induction records with
  | nil => intro acc; rfl
  | cons r t ih =>
      intro acc
      simp only [List.foldl_cons]
      rw [ih]
      by_cases hv : DataMerger.merger_validate_isin
          (DataMerger.normalizeIsin r.isin) = true
      · simp only [hv, if_pos, insertGroup_keys]
      · simp only [Bool.not_eq_true] at hv
        simp only [hv]
        rfl

theorem groupValid_keys (records : List SourceRecord) :
    (DataMerger.groupValid records).map Prod.fst = distinctValidIsins records :=
  groupValid_keys_aux records []

theorem groupValid_vals_ne_nil (records : List SourceRecord) :
    ∀ g ∈ DataMerger.groupValid records, g.2 ≠ [] := by
  have aux : ∀ (l : List SourceRecord)
      (acc : List (String × List SourceRecord)),
      (∀ g ∈ acc, g.2 ≠ []) →
      ∀ g ∈ l.foldl
        (fun gs r =>
          let n := DataMerger.normalizeIsin r.isin
          if DataMerger.merger_validate_isin n then
            DataMerger.insertGroup gs n r
          else gs)
        acc, g.2 ≠ [] := by
    intro l
    induction l with
    | nil => intro acc hacc; exact hacc
    | cons r t ih =>
        intro acc hacc
        simp only [List.foldl_cons]
        apply ih
        by_cases hv : DataMerger.merger_validate_isin
            (DataMerger.normalizeIsin r.isin) = true
        · simp only [hv, if_pos]
          exact insertGroup_vals_ne_nil acc _ r hacc
        · simp only [Bool.not_eq_true] at hv
          simp only [hv]
          simpa using hacc
  exact aux records [] (by simp)

theorem sortByPriority_length (records : List SourceRecord)
    (priority : List String) :
    (DataMerger.sortByPriority records priority).length = records.length :=
  (List.perm_insertionSort _ records).length_eq

theorem merge_records_isSome (isin : String) (records : List SourceRecord)
    (priority : List String) (h : records ≠ []) :
    ∃ a, DataMerger.merge_records isin records priority = some a ∧
      a.isin = isin := by
  unfold DataMerger.merge_records
  split
  · next hs =>
      have := sortByPriority_length records priority
      rw [hs] at this
      exact absurd (List.length_eq_zero.mp this.symm) h
  · exact ⟨_, rfl, rfl⟩

theorem filterMap_merge_isins (gs : List (String × List SourceRecord))
    (priority : List String) (h : ∀ g ∈ gs, g.2 ≠ []) :
    ((gs.filterMap
      (fun g => DataMerger.merge_records g.1 g.2 priority)).map
        (fun a => a.isin))
      = gs.map Prod.fst := by
  induction gs with
  | nil => rfl
  | cons g t ih =>
      obtain ⟨a, ha, haisin⟩ :=
        merge_records_isSome g.1 g.2 priority (h g (List.mem_cons_self _ _))
      simp only [List.filterMap_cons, ha, List.map_cons, haisin, List.map]
      rw [ih (fun g' hg' => h g' (List.mem_cons_of_mem _ hg'))]

/-- An input record whose identifier is not a valid ISIN. -/
def c8invalid : SourceRecord :=
  { isin := "INVALID", name := "I", source := "test" }

/-- An input record with a valid identifier. -/
def c8valid : SourceRecord :=
  { isin := "IE00B4L5Y983", name := "V", source := "test" }

/-- C8.  `merge` produces exactly one aggregate per distinct valid
normalized identifier, in order of first appearance (in particular its
output length equals, hence never exceeds, the number of distinct valid
identifiers); an empty input yields an empty output; and records with an
invalid identifier are skipped without failing the batch: merging one
invalid and one valid record yields exactly one aggregate. -/
theorem c8_merge_output_per_valid_identifier :
    (∀ (records : List SourceRecord) (priority : List String),
      (DataMerger.merge records priority).map (fun a => a.isin)
        = distinctValidIsins records) ∧
    (∀ (records : List SourceRecord) (priority : List String),
      (DataMerger.merge records priority).length
        = (distinctValidIsins records).length) ∧
    (∀ priority : List String, DataMerger.merge [] priority = []) ∧
    (DataMerger.merge [c8invalid, c8valid] ["justetf"]).length = 1 := by
  have hmain : ∀ (records : List SourceRecord) (priority : List String),
      (DataMerger.merge records priority).map (fun a => a.isin)
        = distinctValidIsins records := by
    intro records priority
    by_cases hr : records = []
    · subst hr
      rfl
    · rw [DataMerger.merge, if_neg hr]
      rw [filterMap_merge_isins _ priority (groupValid_vals_ne_nil records)]
      exact groupValid_keys records
  refine ⟨hmain, ?_, fun _ => rfl, by rfl⟩
  intro records priority
  have := congrArg List.length (hmain records priority)
  simpa using this

/-! ### C6: identifier validation -/

theorem isinPatternMatch_eq_isinShape (t : String) :
    isinPatternMatch t = isinShape t := by
  obtain ⟨m⟩ := t
  rcases m with _ | ⟨a, _ | ⟨b, _ | ⟨c1, _ | ⟨c2, _ | ⟨c3, _ | ⟨c4, _ | ⟨c5,
    _ | ⟨c6, _ | ⟨c7, _ | ⟨c8, _ | ⟨c9, _ | ⟨d, _ | ⟨x, rest⟩⟩⟩⟩⟩⟩⟩⟩⟩⟩⟩⟩⟩
  all_goals
    simp [isinPatternMatch, isinShape, isUpperAZ, isUpperAlnum, isDigit09,
      String.length, String.toList, Bool.and_assoc]

theorem pyUpper_length (s : String) : (pyUpper s).length = s.length := by
  show (s.data.map Char.toUpper).length = s.data.length
  exact List.length_map _ _

theorem validate_isin_eq_shape_of_upper (s : String) :
    validate_isin s = isinShape (pyUpper s) := by
  unfold validate_isin
  by_cases h12 : s.length = 12
  · have hne : s ≠ "" := by
      intro h
      rw [h] at h12
      simp [String.length] at h12
    rw [if_neg (by simp [hne, h12])]
    exact isinPatternMatch_eq_isinShape (pyUpper s)
  · rw [if_pos (by simp [h12])]
    have hlen : (pyUpper s).length ≠ 12 := by rw [pyUpper_length]; exact h12
    simp [isinShape, hlen]

theorem toUpper_fixed_of_class (c : Char)
    (h : ('A' ≤ c ∧ c ≤ 'Z') ∨ ('0' ≤ c ∧ c ≤ '9')) : c.toUpper = c := by
  unfold Char.toUpper
  simp only [Char.le_def, UInt32.le_def, BitVec.le_def] at h
  have hA : ('A').val.toBitVec.toNat = 65 := rfl
  have hZ : ('Z').val.toBitVec.toNat = 90 := rfl
  have h0 : ('0').val.toBitVec.toNat = 48 := rfl
  have h9 : ('9').val.toBitVec.toNat = 57 := rfl
  have hc : c.toNat = c.val.toBitVec.toNat := rfl
  have h97 : ¬ (97 ≤ c.toNat ∧ c.toNat ≤ 122) := by
    rcases h with ⟨ha, hb⟩ | ⟨ha, hb⟩ <;> omega
  simp only [ge_iff_le]
  rw [if_neg h97]

theorem pyUpper_fixed_of_shape (s : String) (h : isinShape s = true) :
    pyUpper s = s := by
  have hclass : ∀ c ∈ s.toList, ('A' ≤ c ∧ c ≤ 'Z') ∨ ('0' ≤ c ∧ c ≤ '9') := by
    simp only [isinShape, Bool.and_eq_true, List.all_eq_true, decide_eq_true_eq,
      Bool.or_eq_true] at h
    obtain ⟨⟨⟨hlen, h2⟩, h9seg⟩, hlast⟩ := h
    intro c hc
    rw [← List.take_append_drop 2 s.toList, List.mem_append] at hc
    rcases hc with hc | hc
    · exact Or.inl (h2 c hc)
    · rw [← List.take_append_drop 9 (s.toList.drop 2), List.mem_append] at hc
      rcases hc with hc | hc
      · rcases h9seg c hc with h | h
        · exact Or.inl h
        · exact Or.inr h
      · rw [List.drop_drop] at hc
        exact Or.inr (hlast c hc)
  have hmap : s.toList.map Char.toUpper = s.toList := by
    calc s.toList.map Char.toUpper = s.toList.map id := by
          apply List.map_congr_left
          intro c hc
          exact toUpper_fixed_of_class c (hclass c hc)
      _ = s.toList := List.map_id s.toList
  exact congrArg String.mk hmap

/-- C6 counterexample.  The claim says the lowercase form
`ie00b4l5y983` is rejected; the validator upper-cases its input before
matching, so it is accepted. -/
theorem c6_lowercase_is_accepted :
    validate_isin "ie00b4l5y983" = true := by rfl

/-- C6 (amended).  Every string matching the identifier pattern validates;
in general `validate_isin` accepts exactly the strings whose upper-cased
form matches the pattern, so a single-character mutation outside the
allowed class is rejected unless it is a mere case change:
`IE00B4L5Y983` → true, `ie00b4l5y983` → true (case change),
`IE00B4L5Y98` (11 characters) → false. -/
theorem c6_validator_matches_uppercased_form :
    (∀ s : String, isinShape s = true → validate_isin s = true) ∧
    (∀ s : String, validate_isin s = isinShape (pyUpper s)) ∧
    validate_isin "IE00B4L5Y983" = true ∧
    validate_isin "ie00b4l5y983" = true ∧
    validate_isin "IE00B4L5Y98" = false := by
  refine ⟨?_, validate_isin_eq_shape_of_upper, by rfl, by rfl, by rfl⟩
  intro s hs
  rw [validate_isin_eq_shape_of_upper, pyUpper_fixed_of_shape s hs]
  exact hs

/-- C6 witness: the amended universal statement applied at the concrete
valid identifier. -/
theorem c6_validator_matches_uppercased_form_witness :
    isinShape "IE00B4L5Y983" = true ∧ validate_isin "IE00B4L5Y983" = true :=
  ⟨by rfl, c6_validator_matches_uppercased_form.1 "IE00B4L5Y983" (by rfl)⟩

end SelRend
